/-
Verification of the CoH training orchestrator (coh/coh_train.py) against its
specification.  The neural-network math, tokenization and the JAX runtime are
opaque collaborators (spec §1); they enter the model as abstract pure functions
(a gradient oracle, an optimizer, batch streams).  Everything that coh_train.py
itself does — gradient combination, the training loop, logging/eval phases,
checkpoint triggering, startup checks — is translated directly from the source.
-/
import Mathlib

namespace CoH

/-- A parameter / gradient tree: ordered leaves keyed by dotted path.  Rational
leaf values stand in for the opaque tensor leaves (spec §3 ParameterTree); the
claims under study only ever combine leaves pointwise. -/
abbrev PTree := List (String × ℚ)

/-- A flat metrics mapping, as emitted by train_step / eval_step (a Python dict
of named scalars). -/
abbrev Metrics := List (String × ℚ)

/-- jax.tree_map over two trees of identical structure (coh_train.py line 172). -/
def tree_map2 (f : ℚ → ℚ → ℚ) (t1 t2 : PTree) : PTree :=
  List.zipWith (fun a b => (a.1, f a.2 b.2)) t1 t2

/-- Dict lookup in a metrics mapping. -/
def lookupMetric (m : Metrics) (k : String) : Option ℚ :=
  (m.find? (fun kv => kv.1 == k)).map Prod.snd

/-- Python dict.update: keys of `base` keep their position but take the value
from `upd` when present; keys only in `upd` are appended. -/
def metricsUpdate (base upd : Metrics) : Metrics :=
  (base.map fun kv => (kv.1, (lookupMetric upd kv.1).getD kv.2)) ++
    upd.filter (fun kv => (lookupMetric base kv.1).isNone)

/-- Modelled from the spec: the RNGStream (coh.jax_utils.JaxRNG is not under
src/).  Spec §4.3: `split(stream) -> (subkey, advanced_stream)` is a pure
deterministic function of the parent key that never reuses a key.  Keys are
modelled as nodes of an infinite binary tree, so distinct split chains yield
distinct keys. -/
def rngSplit (s : Nat) : Nat × Nat := (2 * s + 1, 2 * s + 2)

/-- Modelled from the spec: global_norm (coh.jax_utils, not under src/) only
feeds the gradient_norm / param_norm metric entries; modelled as a
deterministic scalar summary of the tree (sum of squared leaves). -/
def global_norm (t : PTree) : ℚ := (t.map fun kv => kv.2 * kv.2).sum

/-- Modelled from the spec: average_metrics (coh.jax_utils, not under src/).
Spec §4.6 step 5: the per-step evaluation metrics are averaged key-wise into
the log record. -/
def average_metrics (ms : List Metrics) : Metrics :=
  match ms with
  | [] => []
  | m :: _ =>
      m.map fun kv =>
        (kv.1, (ms.map (fun m2 => (lookupMetric m2 kv.1).getD 0)).sum / (ms.length : ℚ))

/-- A data batch (spec §6 data boundary): token ids and 0/1 loss masks. -/
structure Batch where
  tokens : List (List Nat)
  loss_masks : List (List ℚ)
deriving DecidableEq, Repr

/-- The optimizer boundary (spec §6): `update (grads, opt_state, params) ->
(updates, new_opt_state)`.  Optimizer state is itself a tree. -/
structure Optimizer where
  «init» : PTree → PTree
  update : PTree → PTree → PTree → PTree × PTree

/-- flax.training.train_state.TrainState: the triple advanced by each step. -/
structure TrainState where
  step : Nat
  params : PTree
  opt_state : PTree
deriving DecidableEq, Repr

/-- TrainState.create(params, tx): step 0, freshly initialized optimizer state. -/
def TrainState.create (tx : Optimizer) (params : PTree) : TrainState :=
  ⟨0, params, tx.init params⟩

/-- TrainState.apply_gradients: updates, new_opt_state = tx.update(grads,
opt_state, params); params := params + updates; step := step + 1. -/
def TrainState.apply_gradients (tx : Optimizer) (ts : TrainState) (grads : PTree) :
    TrainState :=
  let r := tx.update grads ts.opt_state ts.params
  ⟨ts.step + 1, tree_map2 (fun p u => p + u) ts.params r.1, r.2⟩

/-- The opaque gradient oracle: jax.value_and_grad(loss_and_accuracy) as used
in train_step (line 169).  Spec §1: "compute gradient" is an opaque, pure,
deterministic function of the parameter tree and the batch; the rng key the
closure draws from the stream is an explicit argument.  Returns
((loss, accuracy), grads). -/
abbrev GradFn := PTree → Batch → Nat → (ℚ × ℚ) × PTree

/-- train_step (coh_train.py lines 155-186): one rng key is drawn for the hf
forward pass, one for the pt forward pass, gradients are combined leaf-wise as
`hf_grad + pt_grad * pt_loss_weight` (lines 172-175), the optimizer update is
applied (line 176), and the metrics mapping is emitted (lines 177-185; the
learning_rate entry reads the step counter of the *updated* state). -/
def train_step (w : ℚ) (tx : Optimizer) (lr : Nat → ℚ) (gradFn : GradFn)
    (ts : TrainState) (rng : Nat) (hfB ptB : Batch) :
    TrainState × Nat × Metrics :=
  let k1 := (rngSplit rng).1
  let r1 := (rngSplit rng).2
  let hfRes := gradFn ts.params hfB k1
  let k2 := (rngSplit r1).1
  let r2 := (rngSplit r1).2
  let ptRes := gradFn ts.params ptB k2
  let grads := tree_map2 (fun hf_grad pt_grad => hf_grad + pt_grad * w) hfRes.2 ptRes.2
  let ts' := TrainState.apply_gradients tx ts grads
  let metrics : Metrics :=
    [("hf_loss", hfRes.1.1), ("pt_loss", ptRes.1.1),
     ("hf_accuracy", hfRes.1.2), ("pt_accuracy", ptRes.1.2),
     ("learning_rate", lr ts'.step),
     ("gradient_norm", global_norm grads),
     ("param_norm", global_norm ts'.params)]
  (ts', (rngSplit r2).1, metrics)

/-- C1: at every training step the gradient handed to the optimizer update is
the leaf-wise combination hf_grad + pt_weight * pt_grad, where both gradients
come from the same loss-and-accuracy oracle applied to the current parameters
on the hf and the pt batch respectively, and the new state is exactly the
optimizer's response to that combination. -/
theorem train_step_applies_combined_gradient
    (w : ℚ) (tx : Optimizer) (lr : Nat → ℚ) (gradFn : GradFn)
    (ts : TrainState) (rng : Nat) (hfB ptB : Batch) :
    (train_step w tx lr gradFn ts rng hfB ptB).1 =
      TrainState.apply_gradients tx ts
        (tree_map2 (fun g1 g2 => g1 + w * g2)
          (gradFn ts.params hfB (rngSplit rng).1).2
          (gradFn ts.params ptB (rngSplit (rngSplit rng).2).1).2) := by
  have hfun : (fun (a b : ℚ) => a + b * w) = fun a b => a + w * b := by
    funext a b
    ring
  simp only [train_step, hfun]

/-- The eval metrics dict `aux` that eval_step computes (coh_train.py lines
202-210): the same loss-and-accuracy oracle evaluated (value only, no
gradient) on the held-out hf and pt batches, renamed with an eval_ prefix. -/
def eval_step_aux (gradFn : GradFn) (ts : TrainState) (rng : Nat) (hfB ptB : Batch) :
    Metrics :=
  let k1 := (rngSplit rng).1
  let r1 := (rngSplit rng).2
  let hfRes := (gradFn ts.params hfB k1).1
  let k2 := (rngSplit r1).1
  let ptRes := (gradFn ts.params ptB k2).1
  [("eval_hf_accuracy", hfRes.2), ("eval_pt_accuracy", ptRes.2),
   ("eval_hf_loss", hfRes.1), ("eval_pt_loss", ptRes.1)]

/-- eval_step (coh_train.py lines 188-211).  The body computes the two losses
and the dict `aux` of eval_-prefixed metrics (see eval_step_aux), but the
return on line 211 names `metrics`, which is not bound anywhere in eval_step:
Python resolves it as a closure over main's local `metrics` — the metrics dict
of the training step (under pjit tracing it is captured as constants at first
trace).  The computed `aux` is dead.  `outer_metrics` is that enclosing value. -/
def eval_step (gradFn : GradFn) (ts : TrainState) (rng : Nat) (hfB ptB : Batch)
    (outer_metrics : Metrics) : Nat × Metrics :=
  let k1 := (rngSplit rng).1
  let r1 := (rngSplit rng).2
  let _hfRes := (gradFn ts.params hfB k1).1
  let k2 := (rngSplit r1).1
  let r2 := (rngSplit r1).2
  let _ptRes := (gradFn ts.params ptB k2).1
  ((rngSplit r2).1, outer_metrics)

/-- The eval loop at a log boundary (coh_train.py lines 307-312): runs
eval_steps evaluation steps, threading the rng and the position of the two
held-out iterators (modelled as streams indexed by a draw counter), and
collects the returned metric dicts. -/
def run_eval_steps (gradFn : GradFn) (evalHf evalPt : Nat → Batch) (ts : TrainState)
    (outer : Metrics) : Nat → Nat → Nat → Nat × Nat × List Metrics
  | 0, rng, eIdx => (rng, eIdx, [])
  | n + 1, rng, eIdx =>
      let r := eval_step gradFn ts rng (evalHf eIdx) (evalPt eIdx) outer
      let rest := run_eval_steps gradFn evalHf evalPt ts outer n r.1 (eIdx + 1)
      (rest.1, rest.2.1, r.2 :: rest.2.2)

/-- The configuration knobs of the training loop (the FLAGS consumed by main's
loop, lines 33-61). -/
structure LoopCfg where
  total_steps : Nat
  log_freq : Nat
  save_model_freq : Nat
  save_milestone_freq : Nat
  eval_steps : Nat
  pt_loss_weight : ℚ
deriving DecidableEq, Repr

/-- Observable actions of the training loop, one constructor per call site:
a completed training step with its metrics, an emitted log record, and the
four save_checkpoint call sites (milestone line 321, rolling line 323,
initial line 294, final line 326).  Saves record the state's step counter,
which is what save_checkpoint writes into the metadata. -/
inductive Event where
  | trained (step : Nat) (metrics : Metrics)
  | logged (step : Nat) (record : Metrics)
  | savedMilestone (stateStep : Nat)
  | savedRolling (stateStep : Nat)
  | savedInitial (stateStep : Nat)
  | savedFinal (stateStep : Nat)
deriving DecidableEq, Repr

/-- The log-interval block (coh_train.py lines 305-318): when the step hits the
log interval, optionally run the eval steps (which rebind only the rng and the
eval iterators — the train state is read, never replaced), merge the averaged
eval metrics into the step's metrics dict, and emit the log record
{"step": step} updated with the metrics.  Returns the train state visible to
the rest of the loop together with the advanced rng and iterator position. -/
def log_phase (cfg : LoopCfg) (gradFn : GradFn) (evalHf evalPt : Nat → Batch)
    (step : Nat) (ts : TrainState) (rng : Nat) (eIdx : Nat) (metrics : Metrics) :
    TrainState × Nat × Nat × List Event :=
  if step % cfg.log_freq = 0 then
    let r :=
      if 0 < cfg.eval_steps then
        let e := run_eval_steps gradFn evalHf evalPt ts metrics cfg.eval_steps rng eIdx
        (e.1, e.2.1, metricsUpdate metrics (average_metrics e.2.2))
      else (rng, eIdx, metrics)
    (ts, r.1, r.2.1, [Event.logged step (metricsUpdate [("step", (step : ℚ))] r.2.2)])
  else (ts, rng, eIdx, [])

/-- The checkpoint trigger block (coh_train.py lines 320-323): a milestone save
when the milestone interval is enabled and divides step+1; otherwise (elif) a
rolling save when the rolling interval is enabled and divides step+1. -/
def save_phase (cfg : LoopCfg) (step : Nat) (ts : TrainState) : List Event :=
  if 0 < cfg.save_milestone_freq ∧ (step + 1) % cfg.save_milestone_freq = 0 then
    [Event.savedMilestone ts.step]
  else if 0 < cfg.save_model_freq ∧ (step + 1) % cfg.save_model_freq = 0 then
    [Event.savedRolling ts.step]
  else []

/-- The training loop (coh_train.py lines 298-323):
`for step, hf_batch, pt_batch in zip(trange(start_step, total_steps), hf, pt)`.
The zip ends as soon as the step range or either data iterator is exhausted —
iterator exhaustion simply ends the loop.  Each iteration runs the train step,
then the log block, then the checkpoint trigger block.  Returns the final
train state, rng, eval-iterator position and the trace of events. -/
def run_loop (cfg : LoopCfg) (tx : Optimizer) (lr : Nat → ℚ) (gradFn : GradFn)
    (evalHf evalPt : Nat → Batch) :
    List Batch → List Batch → Nat → TrainState → Nat → Nat →
    TrainState × Nat × Nat × List Event
  | hfB :: hfs, ptB :: pts, step, ts, rng, eIdx =>
      if step < cfg.total_steps then
        let t := train_step cfg.pt_loss_weight tx lr gradFn ts rng hfB ptB
        let l := log_phase cfg gradFn evalHf evalPt step t.1 t.2.1 eIdx t.2.2
        let saveEvs := save_phase cfg step l.1
        let rest := run_loop cfg tx lr gradFn evalHf evalPt hfs pts (step + 1)
          l.1 l.2.1 l.2.2.1
        (rest.1, rest.2.1, rest.2.2.1,
          Event.trained step t.2.2 :: (l.2.2.2 ++ saveEvs ++ rest.2.2.2))
      else (ts, rng, eIdx, [])
  | _, _, _, ts, rng, eIdx => (ts, rng, eIdx, [])

/-- The loop as main drives it (coh_train.py lines 291-326): start_step is read
from the train state's step counter (line 291), an initial checkpoint is saved
when rolling saves are enabled (lines 293-294), the loop runs from start_step,
and a final checkpoint is saved when rolling saves are enabled (lines 325-326),
on every loop exit path — completion or data exhaustion alike. -/
def main_loop (cfg : LoopCfg) (tx : Optimizer) (lr : Nat → ℚ) (gradFn : GradFn)
    (evalHf evalPt : Nat → Batch) (ts0 : TrainState) (rng0 : Nat)
    (hfs pts : List Batch) : TrainState × List Event :=
  let start_step := ts0.step
  let initEvs := if 0 < cfg.save_model_freq then [Event.savedInitial ts0.step] else []
  let r := run_loop cfg tx lr gradFn evalHf evalPt hfs pts start_step ts0 rng0 0
  let finEvs := if 0 < cfg.save_model_freq then [Event.savedFinal r.1.step] else []
  (r.1, initEvs ++ r.2.2.2 ++ finEvs)

/-- main's restore decision (coh_train.py lines 283-289): nothing restored →
initialize from scratch; only params restored → wrap them via
create_trainstate_from_params (line 142: TrainState.create, i.e. fresh
optimizer state and step 0); a full train state restored → use it. -/
def resolve_train_state (tx : Optimizer) (init_fn : Nat → TrainState) (rng : Nat)
    (restored : Option TrainState) (restored_params : Option PTree) : TrainState :=
  match restored, restored_params with
  | none, none => init_fn rng
  | none, some p => TrainState.create tx p
  | some ts, _ => ts

/-- A whole run as a function of the configured seed (coh_train.py line 75
seeds the stream; lines 213, 285, 296 consume one key each for the shape
evaluation, the initialization and the loop rng), the restore inputs, and
the two training data sequences. -/
def run_training (cfg : LoopCfg) (tx : Optimizer) (lr : Nat → ℚ) (gradFn : GradFn)
    (evalHf evalPt : Nat → Batch) (init_fn : Nat → TrainState)
    (restored : Option TrainState) (restored_params : Option PTree)
    (seed : Nat) (hfs pts : List Batch) : TrainState × List Event :=
  let r1 := (rngSplit seed).2
  let initKey := (rngSplit r1).1
  let r2 := (rngSplit r1).2
  let loopKey := (rngSplit r2).1
  let ts0 := resolve_train_state tx init_fn initKey restored restored_params
  main_loop cfg tx lr gradFn evalHf evalPt ts0 loopKey hfs pts

/-- A model configuration snapshot (the fields of GPTJConfig / OPTConfig that
main touches: vocab size and the bos/eos token ids, lines 111-116 / 126-131). -/
structure ModelConfig where
  name : String
  vocab_size : Nat
  bos_token_id : Nat
  eos_token_id : Nat
deriving DecidableEq, Repr

/-- Python-level failures the startup and checkpoint paths can raise. -/
inductive PyError where
  | nameError (name : String)
  | valueError (msg : String)
  | assertionError (msg : String)
deriving DecidableEq, Repr

/-- The tokenizer facts main reads: bos/eos ids and the vocabulary length. -/
structure TokenizerInfo where
  bos_token_id : Nat
  eos_token_id : Nat
  length : Nat
deriving DecidableEq, Repr

/-- Model/config construction (coh_train.py lines 104-135).  For "gptj" the
local `gptj_config` is bound and `config` aliases it; for "opt" only
`opt_config` and `config` are bound and `gptj_config` stays unbound; any other
model name raises ValueError.  Both branches push the tokenizer's bos/eos ids
into the config and grow vocab_size to the tokenizer length if smaller.
Returns (the binding of the Python local `gptj_config`, if any; the active
`config`). -/
def model_setup (model : String) (gptj opt : ModelConfig) (tok : TokenizerInfo) :
    Except PyError (Option ModelConfig × ModelConfig) :=
  if model = "gptj" then
    let c := { gptj with
      bos_token_id := tok.bos_token_id, eos_token_id := tok.eos_token_id,
      vocab_size := max gptj.vocab_size tok.length }
    .ok (some c, c)
  else if model = "opt" then
    let c := { opt with
      bos_token_id := tok.bos_token_id, eos_token_id := tok.eos_token_id,
      vocab_size := max opt.vocab_size tok.length }
    .ok (none, c)
  else
    .error (.valueError ("Unknown model: " ++ model))

/-- The metadata block save_checkpoint hands to the checkpointer (coh_train.py
lines 255-260): step, variant mapping, flags mapping, and a config snapshot. -/
structure Metadata where
  step : Nat
  variant : List (String × String)
  flags : List (String × String)
  gptj_config : ModelConfig
deriving DecidableEq, Repr

/-- save_checkpoint's metadata construction (coh_train.py lines 253-260).  The
config snapshot is read from the Python local `gptj_config` (line 259),
whatever binding it has — main binds it only on the model == "gptj" branch, so
when it is unbound Python raises NameError('gptj_config') and the save call
never reaches the checkpointer. -/
def save_checkpoint_metadata (step : Nat) (variant flags : List (String × String))
    (gptj_config : Option ModelConfig) : Except PyError Metadata :=
  match gptj_config with
  | some c => .ok ⟨step, variant, flags, c⟩
  | none => .error (.nameError "gptj_config")

/-- The dataset facts the startup checks read (spec §6 data boundary). -/
structure Dataset where
  seq_length : Nat
deriving DecidableEq, Repr

/-- Milestones of main's startup phase, in program order. -/
inductive StartupAction where
  | loadedDatasets
  | checkedSeqLength
  | builtModel (name : String)
  | resolvedSharding
deriving DecidableEq, Repr

/-- main's startup sequence (coh_train.py lines 77-220): dataset acquisition
(with an Unknown-model ValueError raised while picking the tokenizer, line 87,
only when datasets are not restored from a pickled state), then the
seq_length assertion (line 101), then model construction (lines 104-135, with
the Unknown-model ValueError at line 135), then sharding resolution
(lines 213-220).  Returns the actions performed and the error cutting the
sequence short, if any. -/
def main_startup (model : String) (load_dataset_state : Bool) (hf pt : Dataset) :
    List StartupAction × Option PyError :=
  if ¬ load_dataset_state ∧ model ≠ "gptj" ∧ model ≠ "opt" then
    ([], some (.valueError ("Unknown model: " ++ model)))
  else if hf.seq_length ≠ pt.seq_length then
    ([StartupAction.loadedDatasets],
     some (.assertionError "HF and PT datasets must have the same sequence length."))
  else if model = "gptj" ∨ model = "opt" then
    ([StartupAction.loadedDatasets, StartupAction.checkedSeqLength,
      StartupAction.builtModel model, StartupAction.resolvedSharding], none)
  else
    ([StartupAction.loadedDatasets, StartupAction.checkedSeqLength],
     some (.valueError ("Unknown model: " ++ model)))

/-- Is the event a completed training step? -/
def isTrained : Event → Bool
  | .trained _ _ => true
  | _ => false

/-- Number of training steps recorded in a trace. -/
def numTrained (evs : List Event) : Nat := (evs.filter isTrained).length

/-- The per-step training-metrics sequence of a trace. -/
def metricSeq (evs : List Event) : List Metrics :=
  evs.filterMap fun e =>
    match e with
    | .trained _ m => some m
    | _ => none

theorem numTrained_append (a b : List Event) :
    numTrained (a ++ b) = numTrained a + numTrained b := by
  simp [numTrained, List.filter_append]

theorem numTrained_cons_trained (s : Nat) (m : Metrics) (l : List Event) :
    numTrained (Event.trained s m :: l) = numTrained l + 1 := by
  simp [numTrained, List.filter_cons, isTrained]

theorem numTrained_log_phase (cfg : LoopCfg) (gradFn : GradFn)
    (evalHf evalPt : Nat → Batch) (step : Nat) (ts : TrainState) (rng eIdx : Nat)
    (metrics : Metrics) :
    numTrained (log_phase cfg gradFn evalHf evalPt step ts rng eIdx metrics).2.2.2 = 0 := by
  unfold log_phase
  split <;> simp [numTrained, isTrained]

theorem numTrained_save_phase (cfg : LoopCfg) (step : Nat) (ts : TrainState) :
    numTrained (save_phase cfg step ts) = 0 := by
  unfold save_phase
  split
  · simp [numTrained, isTrained]
  · split <;> simp [numTrained, isTrained]

/-- How many training steps the loop performs: it is cut off both by the step
range reaching total_steps and by either data list running out. -/
theorem run_loop_numTrained (cfg : LoopCfg) (tx : Optimizer) (lr : Nat → ℚ)
    (gradFn : GradFn) (evalHf evalPt : Nat → Batch) :
    ∀ (hfs pts : List Batch) (step : Nat) (ts : TrainState) (rng eIdx : Nat),
      numTrained (run_loop cfg tx lr gradFn evalHf evalPt hfs pts step ts rng eIdx).2.2.2 =
        min (cfg.total_steps - step) (min hfs.length pts.length) := by
  intro hfs
  induction hfs with
  | nil =>
      intro pts step ts rng eIdx
      simp [run_loop, numTrained]
  | cons hfB hfs ih =>
      intro pts step ts rng eIdx
      cases pts with
      | nil => simp [run_loop, numTrained]
      | cons ptB pts =>
          by_cases h : step < cfg.total_steps
          · simp only [run_loop, if_pos h]
            rw [numTrained_cons_trained, numTrained_append, numTrained_append,
              numTrained_log_phase, numTrained_save_phase, ih]
            simp only [List.length_cons]
            omega
          · simp only [run_loop, if_neg h]
            simp only [numTrained, List.filter_nil, List.length_nil, List.length_cons]
            omega

/-- How many training steps main performs end to end: the loop count, with no
training events contributed by the initial or final checkpoint saves. -/
theorem main_loop_numTrained (cfg : LoopCfg) (tx : Optimizer) (lr : Nat → ℚ)
    (gradFn : GradFn) (evalHf evalPt : Nat → Batch) (ts0 : TrainState) (rng0 : Nat)
    (hfs pts : List Batch) :
    numTrained (main_loop cfg tx lr gradFn evalHf evalPt ts0 rng0 hfs pts).2 =
      min (cfg.total_steps - ts0.step) (min hfs.length pts.length) := by
  have hA : ∀ (b : Prop) [Decidable b] (s : Nat),
      numTrained (if b then [Event.savedInitial s] else []) = 0 := by
    intro b _ s
    split <;> simp [numTrained, isTrained]
  have hB : ∀ (b : Prop) [Decidable b] (s : Nat),
      numTrained (if b then [Event.savedFinal s] else []) = 0 := by
    intro b _ s
    split <;> simp [numTrained, isTrained]
  simp only [main_loop]
  rw [numTrained_append, numTrained_append, hA, hB, run_loop_numTrained]
  omega

/- Concrete instances used to exercise the theorems on closed inputs. -/

def batch0 : Batch := ⟨[[0]], [[1]]⟩

def opt0 : Optimizer := ⟨fun p => p, fun g s _ => (g, s)⟩

def grad0 : GradFn := fun p _ _ => ((0, 0), p)

def lr0 : Nat → ℚ := fun _ => 0

def stream0 : Nat → Batch := fun _ => batch0

def params0 : PTree := [("w", 1)]

def state0 : TrainState := ⟨0, params0, params0⟩

def state500 : TrainState := ⟨500, params0, params0⟩

def cfgC4 : LoopCfg := ⟨10000, 50, 5, 10, 0, 1/100⟩

def cfgC5 : LoopCfg := ⟨1000, 50, 0, 0, 0, 1/100⟩

def cfgC6 : LoopCfg := ⟨5, 1, 1, 0, 0, 1/100⟩

/-- C2: contrary to the claim, eval_step does not return the evaluation metrics
it computes from the held-out batches: line 211 returns the enclosing scope's
`metrics` (the training-step metrics dict) verbatim and discards the computed
eval_-prefixed dict `aux` (eval_step_aux), so no eval_hf_loss / eval_pt_loss /
eval_hf_accuracy / eval_pt_accuracy entries ever reach the log record. -/
theorem eval_step_returns_enclosing_metrics (gradFn : GradFn) (ts : TrainState)
    (rng : Nat) (hfB ptB : Batch) (outer : Metrics) :
    (eval_step gradFn ts rng hfB ptB outer).2 = outer := rfl

/-- C3: contrary to the claim, checkpoint saving only completes for the 'gptj'
model type: the metadata block reads the Python local `gptj_config` (line 259),
which the 'opt' branch of main never binds, so for model 'opt' every
save_checkpoint call raises NameError('gptj_config') instead of completing. -/
theorem save_checkpoint_opt_metadata_name_error
    (g o : ModelConfig) (tok : TokenizerInfo) (step : Nat)
    (variant flags : List (String × String)) :
    (model_setup "opt" g o tok).map Prod.fst = .ok none ∧
    save_checkpoint_metadata step variant flags none =
      .error (.nameError "gptj_config") := by
  constructor
  · unfold model_setup
    rw [if_neg (by decide), if_pos rfl]
    rfl
  · rfl

/-- C4: when the milestone interval and the rolling interval are both enabled
and both divide step+1, the checkpoint trigger block emits exactly one save and
it is the milestone save; the rolling branch is an elif and is skipped. -/
theorem milestone_takes_priority_over_rolling (cfg : LoopCfg) (step : Nat)
    (ts : TrainState)
    (hm : 0 < cfg.save_milestone_freq) (hr : 0 < cfg.save_model_freq)
    (h1 : (step + 1) % cfg.save_milestone_freq = 0)
    (h2 : (step + 1) % cfg.save_model_freq = 0) :
    save_phase cfg step ts = [Event.savedMilestone ts.step] := by
  unfold save_phase
  rw [if_pos ⟨hm, h1⟩]

theorem milestone_priority_witness :
    0 < cfgC4.save_milestone_freq ∧ 0 < cfgC4.save_model_freq ∧
    (9 + 1) % cfgC4.save_milestone_freq = 0 ∧ (9 + 1) % cfgC4.save_model_freq = 0 ∧
    save_phase cfgC4 9 state0 = [Event.savedMilestone state0.step] :=
  ⟨by decide, by decide, by decide, by decide,
   milestone_takes_priority_over_rolling cfgC4 9 state0
     (by decide) (by decide) (by decide) (by decide)⟩

/-- C5: resuming with a train state whose step counter is S and a configured
total of T ≥ S performs exactly T - S training steps when neither data iterator
runs out first. -/
theorem resume_runs_exactly_remaining_steps (cfg : LoopCfg) (tx : Optimizer)
    (lr : Nat → ℚ) (gradFn : GradFn) (evalHf evalPt : Nat → Batch)
    (ts0 : TrainState) (rng0 : Nat) (hfs pts : List Batch)
    (hST : ts0.step ≤ cfg.total_steps)
    (hhf : cfg.total_steps - ts0.step ≤ hfs.length)
    (hpt : cfg.total_steps - ts0.step ≤ pts.length) :
    numTrained (main_loop cfg tx lr gradFn evalHf evalPt ts0 rng0 hfs pts).2 =
      cfg.total_steps - ts0.step := by
  rw [main_loop_numTrained]
  omega

theorem resume_witness :
    state500.step ≤ cfgC5.total_steps ∧
    cfgC5.total_steps - state500.step ≤ (List.replicate 500 batch0).length ∧
    cfgC5.total_steps - state500.step ≤ (List.replicate 500 batch0).length ∧
    numTrained (main_loop cfgC5 opt0 lr0 grad0 stream0 stream0 state500 0
      (List.replicate 500 batch0) (List.replicate 500 batch0)).2 = 500 :=
  ⟨by decide, by norm_num [cfgC5, state500], by norm_num [cfgC5, state500],
   resume_runs_exactly_remaining_steps cfgC5 opt0 lr0 grad0 stream0 stream0 state500 0
     (List.replicate 500 batch0) (List.replicate 500 batch0)
     (by decide) (by norm_num [cfgC5, state500]) (by norm_num [cfgC5, state500])⟩

/-- C6: when either training data list runs out before the configured total is
reached, the loop ends normally after exactly min(|hf|, |pt|) steps — the zip
simply stops, no failure is propagated — and, with rolling saves enabled, the
final checkpoint save after the loop still happens. -/
theorem data_exhaustion_graceful_with_final_save (cfg : LoopCfg) (tx : Optimizer)
    (lr : Nat → ℚ) (gradFn : GradFn) (evalHf evalPt : Nat → Batch)
    (ts0 : TrainState) (rng0 : Nat) (hfs pts : List Batch)
    (hsave : 0 < cfg.save_model_freq)
    (hex : min hfs.length pts.length < cfg.total_steps - ts0.step) :
    numTrained (main_loop cfg tx lr gradFn evalHf evalPt ts0 rng0 hfs pts).2 =
      min hfs.length pts.length ∧
    ∃ s, Event.savedFinal s ∈ (main_loop cfg tx lr gradFn evalHf evalPt ts0 rng0 hfs pts).2 := by
  constructor
  · rw [main_loop_numTrained]
    omega
  · refine ⟨(run_loop cfg tx lr gradFn evalHf evalPt hfs pts ts0.step ts0 rng0 0).1.step, ?_⟩
    simp only [main_loop, if_pos hsave]
    simp

theorem data_exhaustion_witness :
    0 < cfgC6.save_model_freq ∧
    min [batch0].length [batch0].length < cfgC6.total_steps - state0.step ∧
    (numTrained (main_loop cfgC6 opt0 lr0 grad0 stream0 stream0 state0 0
        [batch0] [batch0]).2 = min [batch0].length [batch0].length ∧
      ∃ s, Event.savedFinal s ∈ (main_loop cfgC6 opt0 lr0 grad0 stream0 stream0 state0 0
        [batch0] [batch0]).2) :=
  ⟨by decide, by decide,
   data_exhaustion_graceful_with_final_save cfgC6 opt0 lr0 grad0 stream0 stream0 state0 0
     [batch0] [batch0] (by decide) (by decide)⟩

/-- C7: starting from externally restored parameters only, the run's train
state is exactly those parameters with a freshly initialized optimizer state
and step counter 0 — so start_step, which main reads from the state's step
counter, is 0. -/
theorem from_restored_params_fresh_state (tx : Optimizer) (init_fn : Nat → TrainState)
    (rng : Nat) (p : PTree) :
    (resolve_train_state tx init_fn rng none (some p)).params = p ∧
    (resolve_train_state tx init_fn rng none (some p)).opt_state = tx.init p ∧
    (resolve_train_state tx init_fn rng none (some p)).step = 0 :=
  ⟨rfl, rfl, rfl⟩

/-- C8: the evaluation block at a log boundary leaves the train state
untouched: eval_step consumes the state read-only and returns only a new rng
and a metrics dict, so the parameters, optimizer state and step counter the
loop carries past any sequence of evaluation steps equal their values before. -/
theorem eval_phase_preserves_train_state (cfg : LoopCfg) (gradFn : GradFn)
    (evalHf evalPt : Nat → Batch) (step : Nat) (ts : TrainState) (rng eIdx : Nat)
    (metrics : Metrics) :
    (log_phase cfg gradFn evalHf evalPt step ts rng eIdx metrics).1.params = ts.params ∧
    (log_phase cfg gradFn evalHf evalPt step ts rng eIdx metrics).1.opt_state = ts.opt_state ∧
    (log_phase cfg gradFn evalHf evalPt step ts rng eIdx metrics).1.step = ts.step := by
  unfold log_phase
  split <;> exact ⟨rfl, rfl, rfl⟩

/-- C9: a whole training run is a deterministic function of the configured
seed, the configuration, the restore inputs and the batch sequences, so two
runs on identical inputs produce identical per-step training-metric
sequences. -/
theorem identical_seed_identical_metrics (cfg : LoopCfg) (tx : Optimizer)
    (lr : Nat → ℚ) (gradFn : GradFn) (evalHf evalPt : Nat → Batch)
    (init_fn : Nat → TrainState) (restored : Option TrainState)
    (restored_params : Option PTree) (seed : Nat) (hfs pts : List Batch)
    (r1 r2 : TrainState × List Event)
    (h1 : r1 = run_training cfg tx lr gradFn evalHf evalPt init_fn restored
      restored_params seed hfs pts)
    (h2 : r2 = run_training cfg tx lr gradFn evalHf evalPt init_fn restored
      restored_params seed hfs pts) :
    metricSeq r1.2 = metricSeq r2.2 := by
  rw [h1, h2]

theorem identical_seed_witness :
    run_training cfgC6 opt0 lr0 grad0 stream0 stream0 (fun _ => state0) none none 42
        [batch0] [batch0] =
      run_training cfgC6 opt0 lr0 grad0 stream0 stream0 (fun _ => state0) none none 42
        [batch0] [batch0] ∧
    metricSeq (run_training cfgC6 opt0 lr0 grad0 stream0 stream0 (fun _ => state0) none none 42
        [batch0] [batch0]).2 =
      metricSeq (run_training cfgC6 opt0 lr0 grad0 stream0 stream0 (fun _ => state0) none none 42
        [batch0] [batch0]).2 :=
  ⟨rfl,
   identical_seed_identical_metrics cfgC6 opt0 lr0 grad0 stream0 stream0
     (fun _ => state0) none none 42 [batch0] [batch0] _ _ rfl rfl⟩

/-- C10: for a supported model type, differing hf/pt sequence lengths stop the
startup with the assertion error of line 101 after dataset acquisition but
before model construction and sharding resolution; consequently a startup that
completes without error has equal sequence lengths. -/
theorem seq_length_mismatch_asserts_before_model (model : String) (lds : Bool)
    (hf pt : Dataset) (hm : model = "gptj" ∨ model = "opt") :
    (hf.seq_length ≠ pt.seq_length →
      (main_startup model lds hf pt).2 =
        some (.assertionError "HF and PT datasets must have the same sequence length.") ∧
      (main_startup model lds hf pt).1 = [StartupAction.loadedDatasets]) ∧
    ((main_startup model lds hf pt).2 = none → hf.seq_length = pt.seq_length) := by
  have hmm : ¬ (¬ lds = true ∧ model ≠ "gptj" ∧ model ≠ "opt") := by
    rcases hm with h | h <;> simp [h]
  constructor
  · intro hne
    unfold main_startup
    rw [if_neg hmm, if_pos hne]
    exact ⟨rfl, rfl⟩
  · intro hnone
    by_contra hne
    unfold main_startup at hnone
    rw [if_neg hmm, if_pos hne] at hnone
    simp at hnone

theorem seq_length_witness :
    (("gptj" : String) = "gptj" ∨ ("gptj" : String) = "opt") ∧
    (((⟨1024⟩ : Dataset).seq_length ≠ (⟨2048⟩ : Dataset).seq_length →
        (main_startup "gptj" false ⟨1024⟩ ⟨2048⟩).2 =
          some (.assertionError "HF and PT datasets must have the same sequence length.") ∧
        (main_startup "gptj" false ⟨1024⟩ ⟨2048⟩).1 = [StartupAction.loadedDatasets]) ∧
      ((main_startup "gptj" false ⟨1024⟩ ⟨2048⟩).2 = none →
        (⟨1024⟩ : Dataset).seq_length = (⟨2048⟩ : Dataset).seq_length)) :=
  ⟨Or.inl rfl,
   seq_length_mismatch_asserts_before_model "gptj" false ⟨1024⟩ ⟨2048⟩ (Or.inl rfl)⟩

end CoH
